import Mathlib

/-!
Shallow embedding of the IP-Landing-API web application (`app.py`, `utils.py`,
`config.py`).  Python strings are modelled as `List Char`, timestamps as
integers counting minutes, the `visitor_logs` table as a `List VisitorRecord`
in insertion order, and the outcome of each external HTTP call as an explicit
inductive parameter of the function that performs it.  The storage layer is
modelled as always reachable, so the fail-open branches taken on database
errors do not arise.
-/

set_option maxRecDepth 10000

namespace IPLanding

/-- Python strings are modelled as lists of characters. -/
abbrev Str := List Char

/-- The characters removed by `sanitize_user_agent` (utils.py line 32), the
regex class of `<`, `>`, double quote, single quote, `;` and backslash
(the quotes and the backslash are written via their code points). -/
def harmfulChars : Str := ['<', '>', Char.ofNat 34, Char.ofNat 39, ';', Char.ofNat 92]

/-- utils.py `sanitize_user_agent`: empty/absent input maps to "Unknown";
otherwise the harmful characters are removed and the result truncated to 500
characters. -/
def sanitize_user_agent (user_agent : Str) : Str :=
  if user_agent.isEmpty then "Unknown".data
  else (user_agent.filter (fun c => !harmfulChars.contains c)).take 500

/-- Character class `[a-zA-Z0-9._%+-]` (local part of the email regex in
utils.py line 42).  `Char.isAlphanum` is exactly `a`-`z`, `A`-`Z`, `0`-`9`. -/
def isLocalChar (c : Char) : Bool :=
  c.isAlphanum || c == '.' || c == '_' || c == '%' || c == '+' || c == '-'

/-- Character class `[a-zA-Z0-9.-]` (domain part of the email regex). -/
def isDomainChar (c : Char) : Bool :=
  c.isAlphanum || c == '.' || c == '-'

/-- Matcher for the regex tail `[a-zA-Z0-9.-]+\.[a-zA-Z]{2,}` against a whole
string.  The tld class contains no dot, so any match splits the string at its
last dot; this function performs exactly that split (working on the reversed
string) and checks both sides. -/
def domainTldMatch (r : Str) : Bool :=
  match r.reverse.dropWhile (fun c => c != '.') with
  | [] => false
  | _ :: dRev =>
      !dRev.isEmpty && dRev.all isDomainChar &&
        decide (2 ≤ (r.reverse.takeWhile (fun c => c != '.')).length) &&
        (r.reverse.takeWhile (fun c => c != '.')).all Char.isAlpha

/-- Full match of `[a-zA-Z0-9._%+-]+@[a-zA-Z0-9.-]+\.[a-zA-Z]{2,}` against a
whole string.  The local class does not contain `@`, so the local part of any
match is exactly the maximal local-class prefix of the string. -/
def emailCoreMatch (s : Str) : Bool :=
  match s.dropWhile isLocalChar with
  | [] => false
  | c :: rest =>
      c == '@' && !(s.takeWhile isLocalChar).isEmpty && domainTldMatch rest

/-- Python `re.match` with the anchored pattern `^...$` of utils.py line 42:
in Python, `$` also matches just before a single trailing newline, so the call
accepts `s` exactly when the core pattern matches `s` itself or `s` minus one
trailing newline. -/
def pyEmailRegexMatch (s : Str) : Bool :=
  emailCoreMatch s ||
    (match s.getLast? with
     | some c => c == '\n' && emailCoreMatch s.dropLast
     | none => false)

/-- utils.py `validate_email_format`: false on empty input or length above
255, else the regex match. -/
def validate_email_format (email : Str) : Bool :=
  if email.isEmpty || decide (255 < email.length) then false
  else pyEmailRegexMatch email

/-- The control characters removed by `clean_form_data` (utils.py line 53):
code points 0x00-0x08, 0x0B, 0x0C, 0x0E-0x1F and 0x7F. -/
def isStrippedControl (c : Char) : Bool :=
  decide (c.toNat ≤ 8) || c.toNat == 11 || c.toNat == 12 ||
    (decide (14 ≤ c.toNat) && decide (c.toNat ≤ 31)) || c.toNat == 127

/-- Python `str.strip()`: drop whitespace from both ends (modelled with
`Char.isWhitespace`, which covers the ASCII whitespace appearing here). -/
def pyStrip (s : Str) : Str :=
  ((s.dropWhile Char.isWhitespace).reverse.dropWhile Char.isWhitespace).reverse

/-- utils.py `clean_form_data`, applied to one string value: strip leading and
trailing whitespace, then remove the control characters. -/
def clean_form_value (v : Str) : Str :=
  (pyStrip v).filter (fun c => !isStrippedControl c)

/-- utils.py line 74: the fixed bot indicator list. -/
def botIndicators : List Str :=
  ["bot".data, "crawler".data, "spider".data, "scraper".data, "curl".data,
   "wget".data, "python-requests".data, "http".data, "monitor".data,
   "test".data, "scan".data]

/-- utils.py `detect_bot_user_agent`: case-insensitive substring match against
the indicator list; empty input gives false. -/
def detect_bot_user_agent (user_agent : Str) : Bool :=
  if user_agent.isEmpty then false
  else
    let lowered := user_agent.map Char.toLower
    botIndicators.any (fun k => decide (k <:+: lowered))

/-- config.py `Config`: the data-validation limits are fixed class attributes
(not read from the environment). -/
def MIN_NAME_LENGTH : Nat := 2

def MAX_NAME_LENGTH : Nat := 100

def MAX_EMAIL_LENGTH : Nat := 255

def MAX_MESSAGE_LENGTH : Nat := 1000

/-- config.py default for `VISITOR_LOG_COOLDOWN_MINUTES`. -/
def VISITOR_LOG_COOLDOWN_MINUTES : Int := 5

/-- config.py default for `MAX_FORM_SUBMISSIONS_PER_IP_PER_HOUR`. -/
def MAX_FORM_SUBMISSIONS_PER_IP_PER_HOUR : Nat := 10

/-- app.py line 390: the fixed spam keyword list. -/
def spamKeywords : List Str :=
  ["click here".data, "buy now".data, "free money".data, "win now".data,
   "urgent".data, "limited time".data, "act now".data]

/-- app.py line 396: the characters tested for 5-fold repetition. -/
def alnumChars : Str := "abcdefghijklmnopqrstuvwxyz0123456789".data

/-- app.py line 391: `(name + ' ' + email + ' ' + message).lower()`. -/
def combinedText (name email message : Str) : Str :=
  (name ++ ' ' :: (email ++ ' ' :: message)).map Char.toLower

/-- app.py line 392: some spam keyword occurs in the combined text. -/
def spamKeywordFires (name email message : Str) : Bool :=
  spamKeywords.any (fun k => decide (k <:+: combinedText name email message))

/-- app.py line 396: some tested character occurs 5 times in a row in the
combined text. -/
def spamRepeatFires (name email message : Str) : Bool :=
  alnumChars.any (fun ch =>
    decide (List.replicate 5 ch <:+: combinedText name email message))

/-- The submission path appends a spam error exactly when one of the two spam
checks fires (app.py lines 389-397). -/
def spamHeuristicFires (name email message : Str) : Bool :=
  spamKeywordFires name email message || spamRepeatFires name email message

/-- The geolocation fields of one resolver answer (the projection of the
upstream JSON that `log_visitor` stores).  Coordinates are modelled as
rationals; only the exact constants 0.0 matter here. -/
structure LocationData where
  country_name : Str
  country_code : Str
  city : Str
  region : Str
  postal : Str
  latitude : Rat
  longitude : Rat
  timezone : Str
  currency : Str
  languages : Str
  org : Str
  asn : Str
  hostname : Str
  deriving DecidableEq

/-- app.py lines 126-140: the fixed synthetic record returned for local
addresses. -/
def localLocationData : LocationData :=
  { country_name := "Local".data, country_code := "LOCAL".data,
    city := "Localhost".data, region := "Local".data, postal := "00000".data,
    latitude := 0, longitude := 0, timezone := "UTC".data,
    currency := "USD".data, languages := "en".data, org := "Local Network".data,
    asn := "AS0000".data, hostname := "localhost".data }

/-- Parsed JSON body of a geolocation response: either a record together with
a flag telling whether an `error` field is present, or a malformed body on
which `response.json()` raises. -/
inductive GeoBody
  | ok (data : LocationData) (hasErrorField : Bool)
  | malformed
  deriving DecidableEq

/-- Outcome of the one upstream HTTP GET of `get_location_data`.  Connection
failures fall under `requestError` there (`requests.exceptions.RequestException`
covers them). -/
inductive GeoOutcome
  | httpResponse (status : Nat) (body : GeoBody)
  | timeout
  | requestError
  | otherError
  deriving DecidableEq

/-- app.py line 124: `not ip_address or ip_address in ['127.0.0.1',
'localhost', '::1']` (a missing or empty address is falsy). -/
def isLocalIp : Option Str → Bool
  | none => true
  | some s => s.isEmpty || s == "127.0.0.1".data || s == "localhost".data || s == "::1".data

/-- app.py `get_location_data`: the resolver result paired with a flag that
records whether the outbound HTTP request was issued at all. -/
def get_location_data (ip_address : Option Str) (upstream : GeoOutcome) :
    Option LocationData × Bool :=
  if isLocalIp ip_address then (some localLocationData, false)
  else
    match upstream with
    | .httpResponse status body =>
        if status = 200 then
          match body with
          | .ok data hasErrorField =>
              if hasErrorField then (none, true) else (some data, true)
          | .malformed => (none, true)
        else (none, true)
    | .timeout => (none, true)
    | .requestError => (none, true)
    | .otherError => (none, true)

/-- The cleaned form payload persisted for a submission; `bot_detected` models
the optional `bot_detected: true` key (absent key = `false`). -/
structure FormData where
  name : Str
  email : Str
  message : Str
  bot_detected : Bool
  deriving DecidableEq

/-- One row of `visitor_logs`, restricted to the columns the claims are about;
`location` packages the nullable geolocation columns, which are all NULL when
resolution failed (`location = none`). -/
structure VisitorRecord where
  ip_address : Str
  location : Option LocationData
  user_agent : Option Str
  form_data : Option FormData
  timestamp : Int
  deriving DecidableEq

/-- The dedup lookback of `log_visitor` (app.py lines 176-183): count rows
with this ip, `form_data IS NULL` and `timestamp > NOW() - cooldown minutes`. -/
def countRecentVisits (log : List VisitorRecord) (ip : Str) (now cooldown : Int) : Nat :=
  (log.filter (fun r =>
    r.ip_address == ip && r.form_data.isNone && decide (now - cooldown < r.timestamp))).length

/-- The row inserted by `log_visitor` (app.py lines 191-229), restricted to
the modelled columns: the user agent is truncated to 500 characters and stored
as NULL when falsy (`user_agent[:500] if user_agent else None`); `form_data`
is NULL unless a payload is given. -/
def newRecord (ip : Str) (loc : Option LocationData) (user_agent : Str)
    (fd : Option FormData) (now : Int) : VisitorRecord :=
  { ip_address := ip, location := loc,
    user_agent := if user_agent.isEmpty then none else some (user_agent.take 500),
    form_data := fd, timestamp := now }

/-- app.py `log_visitor`: nothing happens on a falsy ip; a visit (`fd = none`)
is skipped when the dedup count is positive; otherwise one row is inserted. -/
def log_visitor (log : List VisitorRecord) (ip : Str) (loc : Option LocationData)
    (user_agent : Str) (fd : Option FormData) (now cooldown : Int) : List VisitorRecord :=
  if ip.isEmpty then log
  else if 0 < countRecentVisits log ip now cooldown ∧ fd = none then log
  else log ++ [newRecord ip loc user_agent fd now]

/-- app.py `home` (route `/`): logs a plain visit, passing the RAW User-Agent
header (`request.headers.get('User-Agent', '')`) and no form data.  The
resolver outcome is passed in as `loc`. -/
def home (log : List VisitorRecord) (ip : Str) (userAgentHeader : Str)
    (loc : Option LocationData) (now cooldown : Int) : List VisitorRecord :=
  log_visitor log ip loc userAgentHeader none now cooldown

/-- The rate-limit lookback of `check_form_submission_rate_limit` (app.py
lines 56-64): count rows with this ip, `form_data IS NOT NULL` and
`timestamp > NOW() - INTERVAL 1 hour` (60 minutes). -/
def countRecentSubmissions (log : List VisitorRecord) (ip : Str) (now : Int) : Nat :=
  (log.filter (fun r =>
    r.ip_address == ip && r.form_data.isSome && decide (now - 60 < r.timestamp))).length

/-- app.py `check_form_submission_rate_limit`:
`submission_count >= max_submissions`. -/
def check_form_submission_rate_limit (log : List VisitorRecord) (ip : Str)
    (now : Int) (maxSubs : Nat) : Bool :=
  decide (maxSubs ≤ countRecentSubmissions log ip now)

/-- The validation error messages of the submission path (app.py lines
367-397), as tags; each constructor stands for the literal message built
there. -/
inductive ErrorMsg
  | nameTooShort
  | nameTooLong
  | nameInvalidChars
  | emailRequired
  | emailInvalid
  | emailTooLong
  | messageTooLong
  | spamContent
  | spamPattern
  deriving DecidableEq

/-- The characters removed before the alphabetic check of the name (app.py
line 374): space, hyphen, single quote (code point 39) and period. -/
def nameStripChars : Str := [' ', '-', Char.ofNat 39, '.']

/-- Python `str.isalpha()`: nonempty and every character alphabetic
(modelled with the ASCII `Char.isAlpha`). -/
def pyIsAlpha (s : Str) : Bool := !s.isEmpty && s.all Char.isAlpha

/-- app.py lines 370-375: name validation. -/
def nameErrors (name : Str) : List ErrorMsg :=
  if name.isEmpty || decide (name.length < MIN_NAME_LENGTH) then [.nameTooShort]
  else if decide (MAX_NAME_LENGTH < name.length) then [.nameTooLong]
  else if !pyIsAlpha (name.filter (fun c => !nameStripChars.contains c)) then [.nameInvalidChars]
  else []

/-- app.py lines 378-383: email validation. -/
def emailErrors (email : Str) : List ErrorMsg :=
  if email.isEmpty then [.emailRequired]
  else if !validate_email_format email then [.emailInvalid]
  else if decide (MAX_EMAIL_LENGTH < email.length) then [.emailTooLong]
  else []

/-- app.py lines 386-387: message validation. -/
def messageErrors (message : Str) : List ErrorMsg :=
  if !message.isEmpty && decide (MAX_MESSAGE_LENGTH < message.length) then [.messageTooLong]
  else []

/-- app.py lines 389-397: the two spam checks, in source order. -/
def spamErrors (name email message : Str) : List ErrorMsg :=
  (if spamKeywordFires name email message then [ErrorMsg.spamContent] else []) ++
    (if spamRepeatFires name email message then [ErrorMsg.spamPattern] else [])

/-- app.py lines 367-397: the full error list collected on the submission
path, in source order. -/
def validationErrors (name email message : Str) : List ErrorMsg :=
  nameErrors name ++ emailErrors email ++ messageErrors message ++
    spamErrors name email message

/-- Outcome of the forwarding POST of the submission path (app.py lines
421-434), one constructor per handled case. -/
inductive ForwardOutcome
  | ok (body : Str)
  | okMalformed
  | httpError (status : Nat)
  | timeout
  | connectionError
  | requestError
  | otherError
  deriving DecidableEq

/-- The `api_data` payload assembled from the forwarding outcome (app.py lines
422-434): failures become structured error payloads, never exceptions. -/
inductive ApiData
  | parsed (body : Str)
  | statusError (status : Nat)
  | timedOut
  | connectionFailed
  | requestFailed
  | unexpected
  deriving DecidableEq

/-- app.py lines 422-434: the try/except around the forwarding POST. -/
def apiDataOf : ForwardOutcome → ApiData
  | .ok body => .parsed body
  | .okMalformed => .unexpected
  | .httpError s => .statusError s
  | .timeout => .timedOut
  | .connectionError => .connectionFailed
  | .requestError => .requestFailed
  | .otherError => .unexpected

/-- The three possible responses of the submission path: HTTP 429 with the
rate-limit message, HTTP 400 with the collected errors, or the success
template carrying `api_data`. -/
inductive SubmitResult
  | rateLimited
  | validationFailed (errors : List ErrorMsg)
  | success (api_data : ApiData)
  deriving DecidableEq

/-- Result of one submission request: the table afterwards, the response, and
whether the forwarding POST was attempted. -/
structure SubmitOutcome where
  log : List VisitorRecord
  result : SubmitResult
  forwardAttempted : Bool
  deriving DecidableEq

/-- app.py `submit` (route `/submit`): strip the three fields, check the rate
limit, validate, then sanitize the user agent, clean the fields, tag bot
detection, persist via `log_visitor` and finally forward.  The resolver
outcome is passed in as `loc`, the forwarding outcome as `fw`. -/
def submit (log : List VisitorRecord) (rawName rawEmail rawMessage : Str)
    (ip userAgentHeader : Str) (loc : Option LocationData) (fw : ForwardOutcome)
    (now : Int) (maxSubs : Nat) (cooldown : Int) : SubmitOutcome :=
  let name := pyStrip rawName
  let email := pyStrip rawEmail
  let message := pyStrip rawMessage
  if check_form_submission_rate_limit log ip now maxSubs then
    { log := log, result := .rateLimited, forwardAttempted := false }
  else
    let errors := validationErrors name email message
    if !errors.isEmpty then
      { log := log, result := .validationFailed errors, forwardAttempted := false }
    else
      let user_agent := sanitize_user_agent userAgentHeader
      let fd : FormData :=
        { name := clean_form_value name, email := clean_form_value email,
          message := clean_form_value message,
          bot_detected := detect_bot_user_agent user_agent }
      { log := log_visitor log ip loc user_agent (some fd) now cooldown,
        result := .success (apiDataOf fw), forwardAttempted := true }

/-- The retention threshold of `cleanup_old_visits`: 90 days in minutes. -/
def RETENTION_MINUTES : Int := 129600

/-- app.py `cleanup_old_visits`: DELETE the rows with `form_data IS NULL` and
`timestamp < NOW() - INTERVAL 90 days`; returns the kept rows and the deleted
count (`cursor.rowcount`). -/
def cleanup_old_visits (log : List VisitorRecord) (now : Int) :
    List VisitorRecord × Nat :=
  let kept := log.filter (fun r =>
    !(decide (r.timestamp < now - RETENTION_MINUTES) && r.form_data.isNone))
  (kept, log.length - kept.length)

/-- A sequence of plain visit requests from one IP, processed in order at the
given times (for claim C3). -/
def processVisits (log : List VisitorRecord) (ip : Str) (loc : Option LocationData)
    (user_agent : Str) (cooldown : Int) : List Int → List VisitorRecord
  | [] => log
  | t :: ts =>
      processVisits (log_visitor log ip loc user_agent none t cooldown)
        ip loc user_agent cooldown ts

/-- Claim-side formalisation of the email pattern stated in C7:
`local-part@domain.tld` with local part `[A-Za-z0-9._%+-]+`, domain
`[A-Za-z0-9.-]+` and tld 2 or more letters. -/
def emailSpecPattern (s : Str) : Prop :=
  ∃ l d t : Str, s = l ++ '@' :: (d ++ '.' :: t) ∧ l ≠ [] ∧
    l.all isLocalChar = true ∧ d ≠ [] ∧ d.all isDomainChar = true ∧
    2 ≤ t.length ∧ t.all Char.isAlpha = true

/-- Claim-side text of C8: the plain concatenation name+email+message with no
separators, case-folded. -/
def spamClaimText (name email message : Str) : Str :=
  (name ++ (email ++ message)).map Char.toLower

/-- Claim-side predicate of C8 over the plain concatenation: a spam phrase
occurs, or some alphanumeric character repeats 5 times in a row. -/
def spamClaimFires (name email message : Str) : Prop :=
  (∃ k ∈ spamKeywords, k <:+: spamClaimText name email message) ∨
    (∃ ch : Char, ch.isAlphanum = true ∧
      List.replicate 5 ch <:+: spamClaimText name email message)

/-- The same predicate over the space-joined text the code actually builds
(the amended form of C8). -/
def spamSpacedFires (name email message : Str) : Prop :=
  (∃ k ∈ spamKeywords, k <:+: combinedText name email message) ∨
    (∃ ch : Char, ch.isAlphanum = true ∧
      List.replicate 5 ch <:+: combinedText name email message)

/-- Helper: `takeWhile`/`dropWhile` split at a known failing element. -/
theorem takeWhile_dropWhile_split {α : Type} (p : α → Bool) (l : List α) (c : α) (r : List α)
    (hl : ∀ x ∈ l, p x = true) (hc : p c = false) :
    (l ++ c :: r).takeWhile p = l ∧ (l ++ c :: r).dropWhile p = c :: r := by
  induction l with
  | nil => simp [List.takeWhile_cons, List.dropWhile_cons, hc]
  | cons a as ih =>
    have ha : p a = true := hl a (by simp)
    have ih' := ih (fun x hx => hl x (by simp [hx]))
    simp [List.takeWhile_cons, List.dropWhile_cons, ha, ih'.1, ih'.2]

/-- Helper: the head of a nonempty `dropWhile` result fails the predicate. -/
theorem dropWhile_head_false {α : Type} (p : α → Bool) (l r : List α) (c : α)
    (h : l.dropWhile p = c :: r) : p c = false := by
  induction l with
  | nil => simp at h
  | cons a as ih =>
    rw [List.dropWhile_cons] at h
    split at h
    · exact ih h
    · rename_i hpa
      cases h
      simpa using hpa

/-- Helper: an alphabetic character is not a dot. -/
theorem isAlpha_ne_dot (x : Char) (hx : x.isAlpha = true) : (x != '.') = true := by
  rcases eq_or_ne x '.' with h | h
  · subst h; simp at hx
  · simpa using h

/-- Helper: the executable matcher for the regex tail agrees with the
declarative domain/tld decomposition. -/
theorem domainTld_iff (r : Str) : domainTldMatch r = true ↔
    ∃ d t : Str, r = d ++ '.' :: t ∧ d ≠ [] ∧ d.all isDomainChar = true ∧
      2 ≤ t.length ∧ t.all Char.isAlpha = true := by
  constructor
  · intro h
    unfold domainTldMatch at h
    rcases hd : r.reverse.dropWhile (fun c => c != '.') with _ | ⟨c, dRev⟩
    · rw [hd] at h; simp at h
    · rw [hd] at h
      simp only [Bool.and_eq_true, Bool.not_eq_true', List.isEmpty_eq_false,
        decide_eq_true_eq] at h
      obtain ⟨⟨⟨hdne, hdall⟩, htlen⟩, htall⟩ := h
      have hc := dropWhile_head_false (fun x => x != '.') r.reverse dRev c hd
      have hceq : c = '.' := by simpa using hc
      subst hceq
      have hsplit : r.reverse.takeWhile (fun c => c != '.') ++ '.' :: dRev = r.reverse := by
        rw [← hd]; exact List.takeWhile_append_dropWhile _ _
      have hr : r = dRev.reverse ++ '.' :: (r.reverse.takeWhile (fun c => c != '.')).reverse := by
        have h3 : (dRev.reverse ++ '.' :: (r.reverse.takeWhile (fun c => c != '.')).reverse).reverse
            = r.reverse := by
          rw [List.reverse_append, List.reverse_cons, List.reverse_reverse,
            List.reverse_reverse, List.append_assoc]
          simpa using hsplit
        have h4 := congrArg List.reverse h3
        rw [List.reverse_reverse, List.reverse_reverse] at h4
        exact h4.symm
      refine ⟨dRev.reverse, (r.reverse.takeWhile (fun c => c != '.')).reverse, hr, ?_, ?_, ?_, ?_⟩
      · simpa [List.reverse_eq_nil_iff] using hdne
      · simpa [List.all_reverse] using hdall
      · simpa using htlen
      · simpa [List.all_reverse] using htall
  · rintro ⟨d, t, hr, hdne, hdall, htlen, htall⟩
    have htall' : ∀ x ∈ t.reverse, (x != '.') = true := by
      intro x hx
      exact isAlpha_ne_dot x (List.all_eq_true.1 htall x (by simpa using hx))
    have hdot : (('.' : Char) != '.') = false := by decide
    have hrev : r.reverse = t.reverse ++ '.' :: d.reverse := by
      rw [hr, List.reverse_append]
      simp
    have hsplit := takeWhile_dropWhile_split (fun c => c != '.') t.reverse '.' d.reverse htall' hdot
    unfold domainTldMatch
    rw [hrev, hsplit.2, hsplit.1]
    simp only [Bool.and_eq_true, Bool.not_eq_true', List.isEmpty_eq_false,
      decide_eq_true_eq]
    refine ⟨⟨⟨?_, ?_⟩, ?_⟩, ?_⟩
    · simpa [List.reverse_eq_nil_iff] using hdne
    · simpa [List.all_reverse] using hdall
    · simpa using htlen
    · simpa [List.all_reverse] using htall

/-- Helper: the executable full-pattern matcher agrees with the declarative
`local-part@domain.tld` decomposition. -/
theorem emailCore_iff_spec (s : Str) : emailCoreMatch s = true ↔ emailSpecPattern s := by
  constructor
  · intro h
    unfold emailCoreMatch at h
    rcases hd : s.dropWhile isLocalChar with _ | ⟨c, rest⟩
    · rw [hd] at h; simp at h
    · rw [hd] at h
      simp only [Bool.and_eq_true, beq_iff_eq, Bool.not_eq_true',
        List.isEmpty_eq_false] at h
      obtain ⟨⟨hceq, hlne⟩, hdt⟩ := h
      subst hceq
      have hsplit : s.takeWhile isLocalChar ++ '@' :: rest = s := by
        rw [← hd]; exact List.takeWhile_append_dropWhile _ _
      obtain ⟨d, t, hrest, hdne, hdall, htlen, htall⟩ := (domainTld_iff rest).1 hdt
      refine ⟨s.takeWhile isLocalChar, d, t, ?_, hlne, ?_, hdne, hdall, htlen, htall⟩
      · rw [← hrest]
        exact hsplit.symm
      · exact List.all_eq_true.2 (fun x hx => List.mem_takeWhile_imp hx)
  · rintro ⟨l, d, t, hs, hlne, hlall, hdne, hdall, htlen, htall⟩
    have hat : isLocalChar '@' = false := by decide
    have hsplit := takeWhile_dropWhile_split isLocalChar l '@' (d ++ '.' :: t)
      (fun x hx => List.all_eq_true.1 hlall x hx) hat
    unfold emailCoreMatch
    rw [hs, hsplit.2, hsplit.1]
    simp only [Bool.and_eq_true, beq_iff_eq, Bool.not_eq_true', List.isEmpty_eq_false]
    exact ⟨⟨trivial, hlne⟩, (domainTld_iff _).2 ⟨d, t, rfl, hdne, hdall, htlen, htall⟩⟩

/-- Helper: characterisation of `validate_email_format` on nonempty strings
of length at most 255. -/
theorem validate_email_format_iff (email : Str) (h1 : email ≠ []) (h2 : email.length ≤ 255) :
    validate_email_format email = true ↔
      (emailSpecPattern email ∨
        ∃ s : Str, email = s ++ ['\n'] ∧ emailSpecPattern s) := by
  unfold validate_email_format pyEmailRegexMatch
  have hcond : (email.isEmpty || decide (255 < email.length)) = false := by
    simp only [Bool.or_eq_false_iff, List.isEmpty_eq_false, decide_eq_false_iff_not]
    exact ⟨h1, by omega⟩
  rw [hcond]
  simp only [Bool.false_eq_true, if_false, Bool.or_eq_true]
  constructor
  · rintro (hc | hlast)
    · exact Or.inl ((emailCore_iff_spec _).1 hc)
    · right
      rcases hg : email.getLast? with _ | c
      · rw [hg] at hlast; simp at hlast
      · rw [hg] at hlast
        simp only [Bool.and_eq_true, beq_iff_eq] at hlast
        obtain ⟨hceq, hcore⟩ := hlast
        subst hceq
        have hgl := List.getLast?_eq_getLast email h1
        rw [hg] at hgl
        have hlast_eq : email.getLast h1 = '\n' := by
          injection hgl.symm
        refine ⟨email.dropLast, ?_, (emailCore_iff_spec _).1 hcore⟩
        rw [← hlast_eq]
        exact (List.dropLast_append_getLast h1).symm
  · rintro (hspec | ⟨s0, hs0, hspec⟩)
    · exact Or.inl ((emailCore_iff_spec _).2 hspec)
    · right
      rw [hs0, List.getLast?_concat, List.dropLast_concat]
      simp only [Bool.and_eq_true, beq_iff_eq]
      exact ⟨trivial, (emailCore_iff_spec _).2 hspec⟩

/-- C7 counterexample: `validate_email_format` accepts "a@b.co" followed by a
newline (Python's `$` matches before one trailing newline), but that string
does not match the claimed pattern `local-part@domain.tld`, so the claimed
equivalence fails at this input. -/
theorem c7_counterexample :
    validate_email_format ("a@b.co\n".data) = true ∧
      (emailSpecPattern ("a@b.co\n".data) ↔ False) := by
  constructor
  · decide
  · rw [← emailCore_iff_spec]
    decide

/-- C7 (amended): `validateEmail` returns false for every empty or over-255
string; for every other string it returns true iff the string — or the string
minus a single trailing newline, which Python's `$` anchor also accepts —
matches `local-part@domain.tld` with local part `[A-Za-z0-9._%+-]+`, domain
`[A-Za-z0-9.-]+`, tld 2+ letters; and the three quoted examples hold. -/
theorem c7_amended :
    (∀ s : Str, s = [] ∨ 255 < s.length → validate_email_format s = false) ∧
    (∀ s : Str, s ≠ [] → s.length ≤ 255 →
      (validate_email_format s = true ↔
        (emailSpecPattern s ∨ ∃ s0 : Str, s = s0 ++ ['\n'] ∧ emailSpecPattern s0))) ∧
    validate_email_format ("a@b.co".data) = true ∧
    validate_email_format ("not-an-email".data) = false ∧
    validate_email_format (List.replicate 300 'a' ++ "@b.co".data) = false := by
  refine ⟨?_, validate_email_format_iff, by decide, by decide, ?_⟩
  · intro s hs
    unfold validate_email_format
    rcases hs with hs | hs
    · subst hs; rfl
    · rw [if_pos]
      simp only [Bool.or_eq_true, decide_eq_true_eq]
      exact Or.inr hs
  · unfold validate_email_format
    rw [if_pos]
    simp only [Bool.or_eq_true, decide_eq_true_eq]
    right
    simp

/-- C7 witness: the amended theorem instantiated at the empty string and at
"a@b.co". -/
theorem c7_amended_witness :
    validate_email_format ([] : Str) = false ∧
      (validate_email_format ("a@b.co".data) = true ↔
        (emailSpecPattern ("a@b.co".data) ∨
          ∃ s0 : Str, "a@b.co".data = s0 ++ ['\n'] ∧ emailSpecPattern s0)) :=
  ⟨c7_amended.1 [] (Or.inl rfl), c7_amended.2.1 ("a@b.co".data) (by decide) (by decide)⟩

/-- Helper: `validate_email_format` only accepts strings of length at most 255
(its first guard). -/
theorem validate_email_length_le (e : Str) (h : validate_email_format e = true) :
    e.length ≤ 255 := by
  unfold validate_email_format at h
  split at h
  · simp at h
  · rename_i hc
    simp only [Bool.or_eq_true, not_or, decide_eq_true_eq, List.isEmpty_eq_true] at hc
    omega

/-- Helper: the email-too-long error of the submission path can never be
produced, because `validate_email_format` has already bounded the length. -/
theorem emailErrors_no_tooLong (e : Str) (h : ErrorMsg.emailTooLong ∈ emailErrors e) :
    False := by
  unfold emailErrors at h
  by_cases h1 : e.isEmpty = true
  · rw [if_pos h1] at h; simp at h
  · rw [if_neg h1] at h
    by_cases h2 : validate_email_format e = true
    · rw [if_neg (by simp [h2])] at h
      by_cases h3 : decide (MAX_EMAIL_LENGTH < e.length) = true
      · have hlen := validate_email_length_le e h2
        simp only [decide_eq_true_eq, MAX_EMAIL_LENGTH] at h3
        omega
      · rw [if_neg h3] at h; simp at h
    · rw [if_pos (by simp [h2])] at h; simp at h

/-- Helper: no input produces the email-too-long error message. -/
theorem emailTooLong_not_mem (n e m : Str) :
    ErrorMsg.emailTooLong ∉ validationErrors n e m := by
  intro hmem
  unfold validationErrors at hmem
  simp only [List.mem_append] at hmem
  rcases hmem with ((hmem | hmem) | hmem) | hmem
  · unfold nameErrors at hmem
    split_ifs at hmem <;> simp_all
  · exact emailErrors_no_tooLong e hmem
  · unfold messageErrors at hmem
    split_ifs at hmem <;> simp_all
  · unfold spamErrors at hmem
    simp only [List.mem_append] at hmem
    rcases hmem with hmem | hmem <;> split_ifs at hmem <;> simp_all

/-- C10: the branch reporting "Email must be less than 255 characters"
(guarded by a length check after `validate_email_format` has succeeded) is
unreachable: the error tag never occurs in the collected validation errors,
for any input. -/
theorem c10 : ∀ n e m : Str,
    decide (ErrorMsg.emailTooLong ∈ validationErrors n e m) = false := by
  intro n e m
  simp only [decide_eq_false_iff_not]
  exact emailTooLong_not_mem n e m

/-- Helper: a character with code in a-z or 0-9 is in the tested list. -/
theorem mem_alnum_of_bounds (ch : Char)
    (h : (97 ≤ ch.toNat ∧ ch.toNat ≤ 122) ∨ (48 ≤ ch.toNat ∧ ch.toNat ≤ 57)) :
    ch ∈ alnumChars := by
  have hch : Char.ofNat ch.toNat = ch := Char.ofNat_toNat ch
  obtain ⟨n, hn, heq⟩ : ∃ n, ((97 ≤ n ∧ n ≤ 122) ∨ (48 ≤ n ∧ n ≤ 57)) ∧ ch.toNat = n :=
    ⟨ch.toNat, h, rfl⟩
  rw [← hch, heq]
  rcases hn with ⟨ha, hb⟩ | ⟨ha, hb⟩ <;> interval_cases n <;> decide

/-- Helper: `Char.isAlphanum` splits into the three ASCII code ranges. -/
theorem alnum_class_split (ch : Char) (h : ch.isAlphanum = true) :
    (65 ≤ ch.toNat ∧ ch.toNat ≤ 90) ∨ (97 ≤ ch.toNat ∧ ch.toNat ≤ 122) ∨
      (48 ≤ ch.toNat ∧ ch.toNat ≤ 57) := by
  simp only [Char.isAlphanum, Char.isAlpha, Char.isUpper, Char.isLower, Char.isDigit,
    Bool.or_eq_true, Bool.and_eq_true, decide_eq_true_eq, UInt32.le_def,
    BitVec.le_def] at h
  rcases h with (⟨h1, h2⟩ | ⟨h1, h2⟩) | ⟨h1, h2⟩
  · exact Or.inl ⟨h1, h2⟩
  · exact Or.inr (Or.inl ⟨h1, h2⟩)
  · exact Or.inr (Or.inr ⟨h1, h2⟩)

/-- Helper: `Char.toLower` never produces a character with an uppercase
ASCII code. -/
theorem toLower_not_upper (x : Char) :
    ¬ (65 ≤ (Char.toLower x).toNat ∧ (Char.toLower x).toNat ≤ 90) := by
  have hx : Char.toLower x =
      if x.toNat ≥ 65 ∧ x.toNat ≤ 90 then Char.ofNat (x.toNat + 32) else x := rfl
  rw [hx]
  split
  · rename_i h
    obtain ⟨n, hn1, hn2, heq⟩ : ∃ n, 65 ≤ n ∧ n ≤ 90 ∧ x.toNat = n :=
      ⟨x.toNat, h.1, h.2, rfl⟩
    rw [heq]
    interval_cases n <;> decide
  · rename_i h
    omega

/-- Helper: a 5-fold repetition occurring inside a string puts the repeated
character in the string. -/
theorem mem_of_replicate_infix (ch : Char) (c : Str)
    (h : List.replicate 5 ch <:+: c) : ch ∈ c :=
  h.subset (by simp)

/-- Helper: the unbounded "some alphanumeric character repeats 5 times"
quantifier is equivalent to a scan over the string itself. -/
theorem exists_run_iff_any (c : Str) :
    (∃ ch : Char, ch.isAlphanum = true ∧ List.replicate 5 ch <:+: c) ↔
      c.any (fun ch => ch.isAlphanum && decide (List.replicate 5 ch <:+: c)) = true := by
  rw [List.any_eq_true]
  constructor
  · rintro ⟨ch, ha, hr⟩
    refine ⟨ch, mem_of_replicate_infix _ _ hr, ?_⟩
    simp only [Bool.and_eq_true, decide_eq_true_eq]
    exact ⟨ha, hr⟩
  · rintro ⟨ch, hmem, hb⟩
    simp only [Bool.and_eq_true, decide_eq_true_eq] at hb
    exact ⟨ch, hb.1, hb.2⟩

/-- Helper: a case-folded string contains no uppercase ASCII character. -/
theorem mapToLower_no_upper (s : Str) (ch : Char) (hm : ch ∈ s.map Char.toLower) :
    ¬ (65 ≤ ch.toNat ∧ ch.toNat ≤ 90) := by
  obtain ⟨x, _, hx⟩ := List.mem_map.1 hm
  rw [← hx]
  exact toLower_not_upper x

/-- Helper: the source's scan over `a`-`z`, `0`-`9` is equivalent to the
existence of ANY alphanumeric character repeated 5 times in the case-folded
combined text (uppercase candidates cannot occur in folded text). -/
theorem spamRepeat_iff (n e m : Str) :
    spamRepeatFires n e m = true ↔
      ∃ ch : Char, ch.isAlphanum = true ∧
        List.replicate 5 ch <:+: combinedText n e m := by
  unfold spamRepeatFires
  rw [List.any_eq_true]
  constructor
  · rintro ⟨ch, hmem, hrun⟩
    have hall : ∀ x ∈ alnumChars, x.isAlphanum = true := by decide
    exact ⟨ch, hall ch hmem, by simpa using hrun⟩
  · rintro ⟨ch, halnum, hrun⟩
    refine ⟨ch, ?_, by simpa using hrun⟩
    have hmem : ch ∈ combinedText n e m := mem_of_replicate_infix _ _ hrun
    have hnotup : ¬ (65 ≤ ch.toNat ∧ ch.toNat ≤ 90) :=
      mapToLower_no_upper (n ++ ' ' :: (e ++ ' ' :: m)) ch hmem
    rcases alnum_class_split ch halnum with h | h | h
    · exact absurd h hnotup
    · exact mem_alnum_of_bounds ch (Or.inl h)
    · exact mem_alnum_of_bounds ch (Or.inr h)

/-- Helper: the keyword scan as an existential. -/
theorem spamKeyword_iff (n e m : Str) :
    spamKeywordFires n e m = true ↔
      ∃ k ∈ spamKeywords, k <:+: combinedText n e m := by
  unfold spamKeywordFires
  rw [List.any_eq_true]
  simp only [decide_eq_true_eq]

/-- C8 (amended): the spam heuristic rejects exactly when the SPACE-JOINED
concatenation name+' '+email+' '+message, case-folded, contains one of the
fixed phrases or some alphanumeric character repeated 5+ times consecutively
(the code joins the three fields with single spaces). -/
theorem c8_amended : ∀ n e m : Str,
    spamHeuristicFires n e m = true ↔ spamSpacedFires n e m := by
  intro n e m
  unfold spamHeuristicFires spamSpacedFires
  rw [Bool.or_eq_true, spamRepeat_iff, spamKeyword_iff]

/-- Helper: decidable form of the claim-side spam predicate. -/
theorem spamClaimFires_iff_bool (n e m : Str) :
    spamClaimFires n e m ↔
      (spamKeywords.any (fun k => decide (k <:+: spamClaimText n e m)) ||
        (spamClaimText n e m).any (fun ch =>
          ch.isAlphanum && decide (List.replicate 5 ch <:+: spamClaimText n e m))) = true := by
  unfold spamClaimFires
  rw [Bool.or_eq_true, ← exists_run_iff_any, List.any_eq_true]
  simp only [decide_eq_true_eq]

/-- C8 counterexample: for name "buy", email "now@b.co", message "hi" the
code fires (the space-joined text contains "buy now") while the claimed
predicate over the separator-free concatenation "buynow@b.cohi" does not
hold, so the claimed "exactly when" fails at this input. -/
theorem c8_counterexample :
    spamHeuristicFires ("buy".data) ("now@b.co".data) ("hi".data) = true ∧
      (spamClaimFires ("buy".data) ("now@b.co".data) ("hi".data) ↔ False) := by
  constructor
  · decide
  · rw [spamClaimFires_iff_bool]
    decide

/-- C1 counterexample: on the visit path the User-Agent header is persisted
raw — `<` and `>` survive in the stored value — and an empty header is stored
as NULL rather than as "Unknown". -/
theorem c1_counterexample :
    (home [] ("9.9.9.9".data) ("<script>".data) none 0 5).map VisitorRecord.user_agent
        = [some ("<script>".data)] ∧
      (home [] ("9.9.9.9".data) [] none 0 5).map VisitorRecord.user_agent = [none] := by
  decide

/-- C1 (amended): for every visit request that is not skipped by the dedup
check, the persisted record's user_agent is the RAW User-Agent header
truncated to 500 characters (no character stripping — `sanitize_user_agent`
is only applied on the submission path), and it is NULL, not "Unknown", when
the header is empty or absent. -/
theorem c1_amended (log : List VisitorRecord) (ip userAgentHeader : Str)
    (loc : Option LocationData) (now cooldown : Int)
    (hip : ip ≠ []) (hfresh : countRecentVisits log ip now cooldown = 0) :
    home log ip userAgentHeader loc now cooldown =
      log ++ [{ ip_address := ip, location := loc,
                user_agent := if userAgentHeader.isEmpty then none
                              else some (userAgentHeader.take 500),
                form_data := none, timestamp := now }] := by
  have h1 : ip.isEmpty = false := List.isEmpty_eq_false.2 hip
  simp [home, log_visitor, h1, hfresh, newRecord]

/-- C1 witness: the amended theorem at a concrete fresh visit. -/
theorem c1_amended_witness :
    home [] ("9.9.9.9".data) ("Mozilla".data) none 0 5 =
      [] ++ [{ ip_address := "9.9.9.9".data, location := none,
               user_agent := if ("Mozilla".data : Str).isEmpty then none
                             else some (("Mozilla".data : Str).take 500),
               form_data := none, timestamp := 0 }] :=
  c1_amended [] ("9.9.9.9".data) ("Mozilla".data) none 0 5 (by decide) (by decide)

/-- C2: a form submission from an IP that already has at least maxSubs
submission records within the last hour is rejected with the rate-limit
response (HTTP 429), the table is unchanged and no forwarding call is made. -/
theorem c2 (log : List VisitorRecord) (rawName rawEmail rawMessage ip ua : Str)
    (loc : Option LocationData) (fw : ForwardOutcome) (now : Int)
    (maxSubs : Nat) (cooldown : Int)
    (h : maxSubs ≤ countRecentSubmissions log ip now) :
    submit log rawName rawEmail rawMessage ip ua loc fw now maxSubs cooldown =
      { log := log, result := SubmitResult.rateLimited, forwardAttempted := false } := by
  unfold submit check_form_submission_rate_limit
  rw [if_pos (by simpa using h)]

/-- C2 witness: ten prior submissions within the hour block the eleventh. -/
theorem c2_witness :
    submit
        (List.replicate 10
          { ip_address := "5.5.5.5".data, location := none, user_agent := none,
            form_data := some { name := "Al".data, email := "a@b.co".data,
                                message := [], bot_detected := false },
            timestamp := 0 })
        ("X".data) ("x@y.co".data) [] ("5.5.5.5".data) ("UA".data) none
        ForwardOutcome.timeout 30 10 5 =
      { log := List.replicate 10
          { ip_address := "5.5.5.5".data, location := none, user_agent := none,
            form_data := some { name := "Al".data, email := "a@b.co".data,
                                message := [], bot_detected := false },
            timestamp := 0 },
        result := SubmitResult.rateLimited, forwardAttempted := false } :=
  c2 _ _ _ _ _ _ _ _ _ _ _ (by decide)

/-- Helper: the dedup count distributes over table concatenation. -/
theorem countRecentVisits_append (l1 l2 : List VisitorRecord) (ip : Str) (now cooldown : Int) :
    countRecentVisits (l1 ++ l2) ip now cooldown =
      countRecentVisits l1 ip now cooldown + countRecentVisits l2 ip now cooldown := by
  simp [countRecentVisits, List.filter_append]

/-- Helper: a visit with a positive dedup count writes nothing. -/
theorem log_visitor_skip (log : List VisitorRecord) (ip : Str) (loc : Option LocationData)
    (ua : Str) (now cooldown : Int)
    (h : 0 < countRecentVisits log ip now cooldown) :
    log_visitor log ip loc ua none now cooldown = log := by
  unfold log_visitor
  split
  · rfl
  · rw [if_pos ⟨h, rfl⟩]

/-- Helper: a visit with dedup count zero appends exactly one row. -/
theorem log_visitor_insert (log : List VisitorRecord) (ip : Str) (loc : Option LocationData)
    (ua : Str) (now cooldown : Int) (hip : ip ≠ [])
    (h : countRecentVisits log ip now cooldown = 0) :
    log_visitor log ip loc ua none now cooldown = log ++ [newRecord ip loc ua none now] := by
  have h1 : ip.isEmpty = false := List.isEmpty_eq_false.2 hip
  simp [log_visitor, h1, h]

/-- Helper: a fresh visit row inside the lookback window counts as one. -/
theorem countRecentVisits_single_fresh (ip : Str) (loc : Option LocationData) (ua : Str)
    (t now cooldown : Int) (h : now - cooldown < t) :
    countRecentVisits [newRecord ip loc ua none t] ip now cooldown = 1 := by
  simp [countRecentVisits, newRecord, h]

/-- Helper: once a visit row is in the window, every further visit request
before the cooldown elapses is skipped. -/
theorem processVisits_skip_all (log : List VisitorRecord) (ip : Str)
    (loc : Option LocationData) (ua : Str) (cooldown t0 : Int) (ts : List Int)
    (hts : ∀ t ∈ ts, t < t0 + cooldown) :
    processVisits (log ++ [newRecord ip loc ua none t0]) ip loc ua cooldown ts =
      log ++ [newRecord ip loc ua none t0] := by
  induction ts with
  | nil => rfl
  | cons t ts ih =>
    have hwin : t - cooldown < t0 := by
      have := hts t (by simp)
      omega
    have hcount : 0 < countRecentVisits (log ++ [newRecord ip loc ua none t0]) ip t cooldown := by
      rw [countRecentVisits_append,
        countRecentVisits_single_fresh ip loc ua t0 t cooldown hwin]
      omega
    rw [processVisits, log_visitor_skip _ _ _ _ _ _ hcount]
    exact ih (fun x hx => hts x (by simp [hx]))

/-- C3: (i) a visit request finding at least one visit record for its IP in
the cooldown window creates no record, (ii) a visit request finding none
creates exactly one, and (iii) a sequence of visit requests from one IP
starting fresh and all within one cooldown window persists exactly one
record. -/
theorem c3 :
    (∀ (log : List VisitorRecord) (ip : Str) (loc : Option LocationData) (ua : Str)
        (now cooldown : Int), 0 < countRecentVisits log ip now cooldown →
        log_visitor log ip loc ua none now cooldown = log) ∧
    (∀ (log : List VisitorRecord) (ip : Str) (loc : Option LocationData) (ua : Str)
        (now cooldown : Int), ip ≠ [] → countRecentVisits log ip now cooldown = 0 →
        log_visitor log ip loc ua none now cooldown = log ++ [newRecord ip loc ua none now]) ∧
    (∀ (log : List VisitorRecord) (ip : Str) (loc : Option LocationData) (ua : Str)
        (cooldown t0 : Int) (ts : List Int), ip ≠ [] →
        countRecentVisits log ip t0 cooldown = 0 →
        (∀ t ∈ ts, t0 ≤ t ∧ t < t0 + cooldown) →
        processVisits log ip loc ua cooldown (t0 :: ts) =
          log ++ [newRecord ip loc ua none t0]) := by
  refine ⟨log_visitor_skip, log_visitor_insert, ?_⟩
  intro log ip loc ua cooldown t0 ts hip h0 hts
  rw [processVisits, log_visitor_insert log ip loc ua t0 cooldown hip h0]
  exact processVisits_skip_all log ip loc ua cooldown t0 ts (fun t ht => (hts t ht).2)

/-- C3 witness: the three parts at concrete tables and times. -/
theorem c3_witness :
    (log_visitor [newRecord ("7.7.7.7".data) none ("UA".data) none 0]
        ("7.7.7.7".data) none ("UA".data) none 1 5 =
      [newRecord ("7.7.7.7".data) none ("UA".data) none 0]) ∧
    (log_visitor [] ("7.7.7.7".data) none ("UA".data) none 0 5 =
      [] ++ [newRecord ("7.7.7.7".data) none ("UA".data) none 0]) ∧
    (processVisits [] ("7.7.7.7".data) none ("UA".data) 5 [0, 1, 2] =
      [] ++ [newRecord ("7.7.7.7".data) none ("UA".data) none 0]) :=
  ⟨c3.1 _ _ none _ 1 5 (by decide),
   c3.2.1 _ _ none _ 0 5 (by decide) (by decide),
   c3.2.2 [] _ none _ 5 0 [1, 2] (by decide) (by decide) (by decide)⟩

/-- C4: once the rate limit and validation pass, the submission outcome is
independent of the forwarding result: for EVERY forwarding outcome the
submission record is persisted and the response is the success template, with
the forwarding failure only reflected inside the `api_data` payload. -/
theorem c4 (log : List VisitorRecord) (rawName rawEmail rawMessage ip ua : Str)
    (loc : Option LocationData) (now : Int) (maxSubs : Nat) (cooldown : Int)
    (hip : ip ≠ [])
    (hrate : check_form_submission_rate_limit log ip now maxSubs = false)
    (hval : validationErrors (pyStrip rawName) (pyStrip rawEmail) (pyStrip rawMessage) = []) :
    ∀ fw : ForwardOutcome,
      submit log rawName rawEmail rawMessage ip ua loc fw now maxSubs cooldown =
        { log := log ++ [newRecord ip loc (sanitize_user_agent ua)
                  (some { name := clean_form_value (pyStrip rawName),
                          email := clean_form_value (pyStrip rawEmail),
                          message := clean_form_value (pyStrip rawMessage),
                          bot_detected := detect_bot_user_agent (sanitize_user_agent ua) })
                  now],
          result := SubmitResult.success (apiDataOf fw),
          forwardAttempted := true } := by
  intro fw
  have h1 : ip.isEmpty = false := List.isEmpty_eq_false.2 hip
  simp [submit, log_visitor, hrate, hval, h1]

/-- C4 witness: a concrete valid submission whose forwarding POST fails with
a connection error still persists and succeeds. -/
theorem c4_witness :
    submit [] ("John Doe".data) ("john@example.com".data) ("Hello".data)
        ("1.2.3.4".data) ("Mozilla/5.0".data) none ForwardOutcome.connectionError 0 10 5 =
      { log := [] ++ [newRecord ("1.2.3.4".data) none
                (sanitize_user_agent ("Mozilla/5.0".data))
                (some { name := clean_form_value (pyStrip ("John Doe".data)),
                        email := clean_form_value (pyStrip ("john@example.com".data)),
                        message := clean_form_value (pyStrip ("Hello".data)),
                        bot_detected := detect_bot_user_agent
                          (sanitize_user_agent ("Mozilla/5.0".data)) })
                0],
        result := SubmitResult.success (apiDataOf ForwardOutcome.connectionError),
        forwardAttempted := true } :=
  c4 [] _ _ _ _ _ none 0 10 5 (by decide) (by decide) (by decide)
    ForwardOutcome.connectionError

/-- C5: for a null, empty, loopback, localhost or IPv6-loopback address the
resolver returns the identical fixed synthetic record — country "Local",
code "LOCAL", city "Localhost", coordinates 0/0, timezone "UTC", org
"Local Network", hostname "localhost" — and issues no outbound call,
whatever the upstream would have answered. -/
theorem c5 :
    (∀ u : GeoOutcome,
      get_location_data none u = (some localLocationData, false) ∧
      get_location_data (some []) u = (some localLocationData, false) ∧
      get_location_data (some ("127.0.0.1".data)) u = (some localLocationData, false) ∧
      get_location_data (some ("localhost".data)) u = (some localLocationData, false) ∧
      get_location_data (some ("::1".data)) u = (some localLocationData, false)) ∧
    localLocationData.country_name = "Local".data ∧
    localLocationData.country_code = "LOCAL".data ∧
    localLocationData.city = "Localhost".data ∧
    localLocationData.latitude = 0 ∧
    localLocationData.longitude = 0 ∧
    localLocationData.timezone = "UTC".data ∧
    localLocationData.org = "Local Network".data ∧
    localLocationData.hostname = "localhost".data := by
  refine ⟨fun u => ⟨?_, ?_, ?_, ?_, ?_⟩, by decide, by decide, by decide, by decide,
    by decide, by decide, by decide, by decide⟩ <;>
    · unfold get_location_data
      rw [if_pos (by decide)]

/-- C6: for every non-local ip and every upstream outcome the resolver is
total (never raises) and returns a record exactly on HTTP 200 with no error
field in the body; every failure mode collapses to `none`. -/
theorem c6 (ip : Str) (u : GeoOutcome) (h : isLocalIp (some ip) = false) :
    ((get_location_data (some ip) u).1.isSome = true ↔
        ∃ d : LocationData, u = GeoOutcome.httpResponse 200 (GeoBody.ok d false)) ∧
      (∀ d : LocationData, u = GeoOutcome.httpResponse 200 (GeoBody.ok d false) →
        (get_location_data (some ip) u).1 = some d) := by
  unfold get_location_data
  rw [if_neg (by simp [h])]
  rcases u with ⟨status, body⟩ | _ | _ | _
  · by_cases hs : status = 200
    · subst hs
      rcases body with ⟨d, he⟩ | _
      · by_cases hhe : he = true
        · subst hhe
          simp
        · have : he = false := by simpa using hhe
          subst this
          simp
      · simp
    · simp [hs, if_neg hs]
  · simp
  · simp
  · simp

/-- C6 witness: a timeout for a public address resolves to `none`. -/
theorem c6_witness :
    ((get_location_data (some ("8.8.8.8".data)) GeoOutcome.timeout).1.isSome = true ↔
        ∃ d : LocationData,
          GeoOutcome.timeout = GeoOutcome.httpResponse 200 (GeoBody.ok d false)) ∧
      (∀ d : LocationData,
        GeoOutcome.timeout = GeoOutcome.httpResponse 200 (GeoBody.ok d false) →
        (get_location_data (some ("8.8.8.8".data)) GeoOutcome.timeout).1 = some d) :=
  c6 ("8.8.8.8".data) GeoOutcome.timeout (by decide)

/-- C9: the retention cleanup keeps a row iff it is in the table and is not
(a visit row with form_data NULL older than the 90-day threshold); the kept
rows form a sublist of the table, so rows with non-null form_data and rows
newer than the threshold are left unchanged regardless of age. -/
theorem c9 : ∀ (log : List VisitorRecord) (now : Int) (r : VisitorRecord),
    (r ∈ (cleanup_old_visits log now).1 ↔
      r ∈ log ∧ (r.form_data = none → now - RETENTION_MINUTES ≤ r.timestamp)) ∧
    (cleanup_old_visits log now).1.Sublist log := by
  intro log now r
  constructor
  · show r ∈ log.filter _ ↔ _
    rw [List.mem_filter]
    constructor
    · rintro ⟨hmem, hp⟩
      refine ⟨hmem, fun hfd => ?_⟩
      rw [hfd] at hp
      simp only [Option.isNone_none, Bool.and_true, Bool.not_eq_true',
        decide_eq_false_iff_not] at hp
      omega
    · rintro ⟨hmem, himp⟩
      refine ⟨hmem, ?_⟩
      rcases hfd : r.form_data with _ | v
      · have hts := himp hfd
        simp only [hfd, Option.isNone_none, Bool.and_true, Bool.not_eq_true',
          decide_eq_false_iff_not]
        omega
      · simp [hfd]
  · exact List.filter_sublist log

end IPLanding
